import Mathlib

/-!
Shallow embedding of the label-matching and test-assignment core of
`thousandeyes_data_collection.py` (functions `ip_in_any_subnet`,
`agent_matches_filter`, `agent_matches_label`, `build_label_agents_map`,
`build_test_agents_map`, `build_test_agent_assignment_df`).

Conventions of the embedding:
* Python `str` values are Lean `String`s; the handful of Python string
  operations the core uses (`lower`, `strip`, `split(",")`, substring `in`)
  are modelled explicitly on the underlying character list.
* Python `dict`s built by the core are modelled as association lists in
  insertion (iteration) order; Python `set`s are modelled as lists, read up
  to membership.  The inputs satisfy the spec invariant that agent, label
  and test ids are unique within a run, under which `List.lookup` agrees
  with Python dictionary lookup.
* The Python standard library `ipaddress` parsing used by the code is
  modelled for the IPv4 dotted-quad and prefix-length forms that the
  collected data carries (the inventory stores only private IPv4 addresses
  and the labels carry CIDR strings); unparsable strings yield `none`,
  mirroring the `ValueError` the code catches.
-/

namespace TeyesDC

/-- Model of Python `str.lower` (per-character lowering). -/
def pyLower (s : String) : String :=
  ⟨s.data.map Char.toLower⟩

/-- Model of Python `str.strip` (drop leading and trailing whitespace). -/
def pyStrip (s : String) : String :=
  ⟨((s.data.dropWhile Char.isWhitespace).reverse.dropWhile Char.isWhitespace).reverse⟩

/-- Model of Python `s.split(sep)` for a one-character separator. -/
def pySplit (sep : Char) (s : String) : List String :=
  (s.data.splitOn sep).map String.mk

/-- Model of the Python substring test `sub in s`. -/
def pySub (sub s : String) : Bool :=
  decide (sub.data <:+: s.data)

/-- Model of the Python comprehension `[v.strip() for v in raw.split(",") if v.strip()]`
(also used for the set comprehensions over agent-id and label-id strings in
`build_test_agents_map`): split on commas, strip each part, keep the non-empty ones. -/
def parse_id_list (raw : String) : List String :=
  ((pySplit ',' raw).map pyStrip).filter (fun v => v ≠ "")

/-- Model of the Python comprehension `[u.strip() for u in raw.split(",") if u]`
used on the agent-side packed fields (`usernames`, `localIpv4`, `hardwareTypes`):
the emptiness test is on the raw part, the kept parts are stripped. -/
def parse_field_list (raw : String) : List String :=
  ((pySplit ',' raw).filter (fun v => v ≠ "")).map pyStrip

/-- One row of `endpoint_agents_df` as consumed by the matching core
(`agent_matches_filter` reads `id`, `usernames`, `localIpv4`,
`hardwareTypes`, `vpnInfo`; `build_test_agent_assignment_df` reads `name`). -/
structure AgentRow where
  id : String
  name : String
  usernames : String
  localIpv4 : String
  hardwareTypes : String
  vpnInfo : String
deriving DecidableEq, Repr

/-- One row of `labels_df` as consumed by `agent_matches_label`. -/
structure LabelRow where
  id : String
  matchType : String
  agent_id_filter : String
  username_filter : String
  local_network_filter : String
  vpn_vendor_filter : String
  connection_filter : String
deriving DecidableEq, Repr

/-- One row of `scheduled_tests_df` as consumed by `build_test_agents_map`
and `build_test_agent_assignment_df`. -/
structure TestRow where
  testID : String
  testName : String
  agentSelectorType : String
  assignedAgentsRaw : String
  assignedLabelsRaw : String
deriving DecidableEq, Repr

/-- Model of `ipaddress`: parse one decimal octet (ASCII digits, at most
three of them, no leading zero, value at most 255). -/
def parseOctet (l : List Char) : Option Nat :=
  if l = [] then none
  else if ¬ l.all Char.isDigit then none
  else if 3 < l.length then none
  else if l.head? = some '0' ∧ 1 < l.length then none
  else
    let n := l.foldl (fun acc c => acc * 10 + (c.toNat - '0'.toNat)) 0
    if n ≤ 255 then some n else none

/-- Model of `ipaddress.ip_address` on the IPv4 dotted-quad form: four
octets separated by dots, returned as the 32-bit value; anything else is a
parse failure (`none`, standing for the `ValueError` the code catches). -/
def ip_address (s : String) : Option Nat :=
  match (s.data.splitOn '.').map parseOctet with
  | [some a, some b, some c, some d] => some (((a * 256 + b) * 256 + c) * 256 + d)
  | _ => none

/-- Model of `ipaddress`: parse a prefix length (ASCII digits, value at most 32). -/
def parsePrefixLen (l : List Char) : Option Nat :=
  if l = [] then none
  else if ¬ l.all Char.isDigit then none
  else
    let n := l.foldl (fun acc c => acc * 10 + (c.toNat - '0'.toNat)) 0
    if n ≤ 32 then some n else none

/-- The size of the host block of a prefix: `2 ^ (32 - p)`. -/
def maskBlock (p : Nat) : Nat := 2 ^ (32 - p)

/-- Model of `ipaddress.ip_network(s, strict=False)` on the
`address` and `address/prefixlen` forms: the result is the pair of the
network address (host bits masked off, which is what `strict=False` does)
and the prefix length. -/
def ip_network (s : String) : Option (Nat × Nat) :=
  match s.data.splitOn '/' with
  | [addr] => (ip_address ⟨addr⟩).map (fun a => (a, 32))
  | [addr, pfx] =>
    match ip_address ⟨addr⟩, parsePrefixLen pfx with
    | some a, some p => some (a / maskBlock p * maskBlock p, p)
    | _, _ => none
  | _ => none

/-- Model of `ip_obj in net` for IPv4: the address lies in the network iff
dropping the host bits lands on the network address. -/
def ipInNet (ip : Nat) (net : Nat × Nat) : Bool :=
  ip / maskBlock net.2 = net.1 / maskBlock net.2

/-- Embedding of `ip_in_any_subnet` (source lines 167-186): parse the address, returning
`False` if it is invalid; then scan the subnet strings, silently skipping
any that fail to parse, and report whether the address lies in one of them. -/
def ip_in_any_subnet (ip_str : String) (subnet_str_list : List String) : Bool :=
  match ip_address ip_str with
  | none => false
  | some ip_obj =>
    subnet_str_list.any (fun net_str =>
      match ip_network net_str with
      | none => false
      | some net => ipInNet ip_obj net)

/-- The comprehension `[ip.strip() for ip in agent_row["localIpv4"].split(",") if ip]`
from the `local-network` branch of `agent_matches_filter`. -/
def agent_ip_list (agent_row : AgentRow) : List String :=
  parse_field_list agent_row.localIpv4

/-- Embedding of `agent_matches_filter` (source lines 189-267): evaluate one filter
clause against one agent row.  The key is lowered and stripped; any mode
other than `"in"` (after lowering) evaluates to `False`, as does any
unrecognized key.  The dead comparison of the already-lowered key with
`"vpnType"` is kept from the source. -/
def agent_matches_filter (agent_row : AgentRow) (filter_key : String)
    (filter_values : List String) (mode : String) : Bool :=
  let fk := pyStrip (pyLower filter_key)
  if pyLower mode ≠ "in" then false
  else if fk = "agent-id" then
    filter_values.contains (pyStrip agent_row.id)
  else if fk = "username" then
    (parse_field_list agent_row.usernames).any (fun u => filter_values.contains u)
  else if fk = "local-network" then
    (agent_ip_list agent_row).any (fun ip_str => ip_in_any_subnet ip_str filter_values)
  else if fk = "connection" then
    ((parse_field_list agent_row.hardwareTypes).map pyLower).any
      (fun t => (filter_values.map pyLower).contains t)
  else if fk = "vpn-vendor" ∨ fk = "vpnType" then
    filter_values.any (fun fv => pySub (pyLower fv) (pyLower agent_row.vpnInfo))
  else
    false

/-- One filter record as built inside `agent_matches_label`. -/
structure FilterSpec where
  key : String
  values : List String
  mode : String
deriving DecidableEq, Repr

/-- The `filters_to_check` list built by `agent_matches_label` (source
lines 287-333): one filter per label column whose raw string is non-empty
(Python truthiness), in the fixed order agent-id, username, local-network,
vpn-vendor, connection, with the comma-packed values parsed by
`parse_id_list`. -/
def label_filters (label_row : LabelRow) : List FilterSpec :=
  (if label_row.agent_id_filter ≠ "" then
    [⟨"agent-id", parse_id_list label_row.agent_id_filter, "in"⟩] else []) ++
  (if label_row.username_filter ≠ "" then
    [⟨"username", parse_id_list label_row.username_filter, "in"⟩] else []) ++
  (if label_row.local_network_filter ≠ "" then
    [⟨"local-network", parse_id_list label_row.local_network_filter, "in"⟩] else []) ++
  (if label_row.vpn_vendor_filter ≠ "" then
    [⟨"vpn-vendor", parse_id_list label_row.vpn_vendor_filter, "in"⟩] else []) ++
  (if label_row.connection_filter ≠ "" then
    [⟨"connection", parse_id_list label_row.connection_filter, "in"⟩] else [])

/-- Embedding of `agent_matches_label` (source lines 270-341): lower and strip the
label's `matchType`, defaulting to `"and"` when the result is empty; when
the resolved mode is `"and"` every built filter must pass, otherwise (the
`else` branch of the source, taken for `"or"` and for every other
non-empty value) at least one must pass. -/
def agent_matches_label (agent_row : AgentRow) (label_row : LabelRow) : Bool :=
  let match_type0 := pyStrip (pyLower label_row.matchType)
  let match_type := if match_type0 = "" then "and" else match_type0
  let filters_to_check := label_filters label_row
  if match_type = "and" then
    filters_to_check.all (fun f => agent_matches_filter agent_row f.key f.values f.mode)
  else
    filters_to_check.any (fun f => agent_matches_filter agent_row f.key f.values f.mode)

/-- Embedding of `build_label_agents_map` (source lines 344-362): for each label row, in
order, the set of ids of the agent rows it matches. -/
def build_label_agents_map (labels_df : List LabelRow) (endpoint_agents_df : List AgentRow) :
    List (String × List String) :=
  labels_df.map (fun lbl_row =>
    (lbl_row.id,
      (endpoint_agents_df.filter (fun ag_row => agent_matches_label ag_row lbl_row)).map
        (fun ag_row => ag_row.id)))

/-- Model of the Python set union `assigned_ids |= label_agents_map[lid]`
on the list representation: append the elements not already present. -/
def pyUnion (a b : List String) : List String :=
  a ++ b.filter (fun x => decide (x ∉ a))

/-- The per-test body of `build_test_agents_map` (source lines 376-393):
dispatch on `agentSelectorType`; `all-agents` takes the whole inventory id
set, `specific-agents` parses `assignedAgentsRaw` verbatim, `agent-labels`
unions the label map entries of the parsed label ids (absent ids are
skipped), and anything else leaves the initial empty set. -/
def resolve_test_agents (test_row : TestRow)
    (label_agents_map : List (String × List String))
    (all_agent_ids : List String) : List String :=
  if test_row.agentSelectorType = "all-agents" then all_agent_ids
  else if test_row.agentSelectorType = "specific-agents" then
    parse_id_list test_row.assignedAgentsRaw
  else if test_row.agentSelectorType = "agent-labels" then
    (parse_id_list test_row.assignedLabelsRaw).foldl (fun acc lid =>
      match label_agents_map.lookup lid with
      | some s => pyUnion acc s
      | none => acc) []
  else []

/-- Embedding of `build_test_agents_map` (source lines 365-396): one entry per test row,
keyed by `testID`, whose value is that test's resolved agent-id set. -/
def build_test_agents_map (scheduled_tests_df : List TestRow)
    (label_agents_map : List (String × List String))
    (endpoint_agents_df : List AgentRow) : List (String × List String) :=
  let all_agent_ids := endpoint_agents_df.map (fun ag_row => ag_row.id)
  scheduled_tests_df.map (fun test_row =>
    (test_row.testID, resolve_test_agents test_row label_agents_map all_agent_ids))

/-- One row of the assignment DataFrame. -/
structure AssignmentRow where
  testID : String
  testName : String
  agentID : String
  agentName : String
deriving DecidableEq, Repr

/-- The row dictionary appended by `build_test_agent_assignment_df`: names
are resolved through the id-keyed lookup tables, a missing key yielding `""`. -/
def mk_assignment_row (test_lookup agent_lookup : List (String × String))
    (test_id ag_id : String) : AssignmentRow :=
  { testID := test_id
    testName := (test_lookup.lookup test_id).getD ""
    agentID := ag_id
    agentName := (agent_lookup.lookup ag_id).getD "" }

/-- Embedding of `build_test_agent_assignment_df` (source lines 418-439): build the
id-to-name lookups, then append one row per agent id per map entry, in the
iteration order of `test_agents_map` and of each entry's agent-id set. -/
def build_test_agent_assignment_df (scheduled_tests_df : List TestRow)
    (test_agents_map : List (String × List String))
    (endpoint_agents_df : List AgentRow) : List AssignmentRow :=
  let agent_lookup := endpoint_agents_df.map (fun ag_row => (ag_row.id, ag_row.name))
  let test_lookup := scheduled_tests_df.map (fun test_row => (test_row.testID, test_row.testName))
  test_agents_map.foldl (fun rows p =>
    rows ++ p.2.map (fun ag_id => mk_assignment_row test_lookup agent_lookup p.1 ag_id)) []

/-- Lexicographic order on id strings (character by character), the order
"sorted by testId / agentId" speaks about. -/
def idLt (a b : String) : Prop := a.data < b.data

/-- Non-strict version of `idLt`. -/
def idLe (a b : String) : Prop := a.data ≤ b.data

/-- The order "by testId, then by agentId" on assignment rows. -/
def assignLE (r s : AssignmentRow) : Prop :=
  idLt r.testID s.testID ∨ (r.testID = s.testID ∧ idLe r.agentID s.agentID)

instance : DecidableRel idLt := fun a b => by
  unfold idLt; infer_instance

instance : DecidableRel idLe := fun a b => by
  unfold idLe; infer_instance

instance : DecidableRel assignLE := fun r s => by
  unfold assignLE; infer_instance

/-- Agent used in the counterexample to C1: id `a1`, single username `bob`. -/
def c1Agent : AgentRow := ⟨"a1", "agent one", "bob", "", "", ""⟩

/-- Label used in the counterexample to C1: unrecognized matchType `xor`,
one satisfied clause (agent-id) and one unsatisfied clause (username). -/
def c1Label : LabelRow := ⟨"L1", "xor", "a1", "alice", "", "", ""⟩

/-- Agent used in the counterexample to C3. -/
def c3Agent : AgentRow := ⟨"a1", "agent one", "", "", "", ""⟩

/-- Label used in the counterexample to C3: matchType `and` and a
whitespace-only `agent_id_filter`, whose parsed value set is empty yet
which is truthy as a Python string. -/
def c3Label : LabelRow := ⟨"L1", "and", " ", "", "", "", ""⟩

/-- Label used in the witness of the amended C3: empty matchType and all
five filter strings empty. -/
def c3wLabel : LabelRow := ⟨"L2", "", "", "", "", "", ""⟩

/-- Agent used in the witness of the amended C3. -/
def c3wAgent : AgentRow := ⟨"a1", "agent one", "", "", "", ""⟩

/-- Test used in the witness of C4: empty selector type. -/
def c4Test : TestRow := ⟨"T9", "test nine", "", "", ""⟩

/-- Test used in the witness of C6: selector `agent-labels` referencing the
known label id `L1` and the unknown label id `L9`. -/
def c6Test : TestRow := ⟨"T1", "test one", "agent-labels", "", "L1,L9"⟩

/-- Label index used in the witness of C6: only `L1` is known. -/
def c6Map : List (String × List String) := [("L1", ["A1"])]

/-- Test used in the witness of C7: selector `specific-agents` listing the
unknown agent id `X9` and the known agent id `A1`. -/
def c7Test : TestRow := ⟨"T1", "test one", "specific-agents", "X9,A1", ""⟩

/-- Agent inventory used in the witness of C7 (it does not contain `X9`). -/
def c7Agents : List AgentRow := [⟨"A1", "agent one", "", "", "", ""⟩]

theorem mem_pyUnion {a b : List String} {x : String} :
    x ∈ pyUnion a b ↔ x ∈ a ∨ x ∈ b := by
  simp only [pyUnion, List.mem_append, List.mem_filter, decide_eq_true_eq]
  constructor
  · rintro (h | ⟨h, _⟩)
    · exact Or.inl h
    · exact Or.inr h
  · rintro (h | h)
    · exact Or.inl h
    · by_cases hx : x ∈ a
      · exact Or.inl hx
      · exact Or.inr ⟨h, hx⟩

theorem mem_union_foldl (m : List (String × List String)) (x : String) :
    ∀ (lids : List String) (acc : List String),
      (x ∈ lids.foldl (fun acc lid =>
          match m.lookup lid with
          | some s => pyUnion acc s
          | none => acc) acc ↔
        x ∈ acc ∨ ∃ lid ∈ lids, ∃ s, m.lookup lid = some s ∧ x ∈ s) := by
  intro lids
  induction lids with
  | nil => intro acc; simp
  | cons lid rest ih =>
    intro acc
    rw [List.foldl_cons]
    cases h : m.lookup lid with
    | none =>
      simp only [h]
      rw [ih]
      constructor
      · rintro (hx | ⟨l, hl, hs⟩)
        · exact Or.inl hx
        · exact Or.inr ⟨l, List.mem_cons_of_mem _ hl, hs⟩
      · rintro (hx | ⟨l, hl, s, hs, hxs⟩)
        · exact Or.inl hx
        · rcases List.mem_cons.mp hl with rfl | hl
          · rw [h] at hs; cases hs
          · exact Or.inr ⟨l, hl, s, hs, hxs⟩
    | some s =>
      simp only [h]
      rw [ih]
      constructor
      · rintro (hx | ⟨l, hl, hs⟩)
        · rcases mem_pyUnion.mp hx with hx | hx
          · exact Or.inl hx
          · exact Or.inr ⟨lid, List.mem_cons_self lid rest, s, h, hx⟩
        · exact Or.inr ⟨l, List.mem_cons_of_mem _ hl, hs⟩
      · rintro (hx | ⟨l, hl, s', hs, hxs⟩)
        · exact Or.inl (mem_pyUnion.mpr (Or.inl hx))
        · rcases List.mem_cons.mp hl with rfl | hl
          · rw [h] at hs
            injection hs with hs
            subst hs
            exact Or.inl (mem_pyUnion.mpr (Or.inr hxs))
          · exact Or.inr ⟨l, hl, s', hs, hxs⟩

/-- C9: the key set of the map returned by `build_label_agents_map` is
exactly the set of label ids of the input rows — every label gets an entry
(possibly the empty set), and no other keys appear. -/
theorem C9_label_index_keys (labels_df : List LabelRow) (endpoint_agents_df : List AgentRow)
    (lid : String) :
    (∃ e ∈ build_label_agents_map labels_df endpoint_agents_df, e.1 = lid) ↔
      ∃ lbl ∈ labels_df, lbl.id = lid := by
  simp [build_label_agents_map]

/-- C10: the key set of the map returned by `build_test_agents_map` is
exactly the set of test ids of the input rows — every test gets an entry
(tests with unknown selector type included), and no other keys appear. -/
theorem C10_test_map_keys (scheduled_tests_df : List TestRow)
    (label_agents_map : List (String × List String)) (endpoint_agents_df : List AgentRow)
    (tid : String) :
    (∃ e ∈ build_test_agents_map scheduled_tests_df label_agents_map endpoint_agents_df,
        e.1 = tid) ↔
      ∃ t ∈ scheduled_tests_df, t.testID = tid := by
  simp [build_test_agents_map]

/-- C4: a test whose selector type is none of `all-agents`,
`specific-agents`, `agent-labels` (the empty string included) resolves to
the empty agent set, for every label index and every inventory. -/
theorem C4_unknown_selector_empty (scheduled_tests_df : List TestRow)
    (label_agents_map : List (String × List String)) (endpoint_agents_df : List AgentRow)
    (t : TestRow) (ht : t ∈ scheduled_tests_df)
    (h1 : t.agentSelectorType ≠ "all-agents")
    (h2 : t.agentSelectorType ≠ "specific-agents")
    (h3 : t.agentSelectorType ≠ "agent-labels") :
    (t.testID, ([] : List String)) ∈
      build_test_agents_map scheduled_tests_df label_agents_map endpoint_agents_df := by
  have hr : resolve_test_agents t label_agents_map
      (endpoint_agents_df.map (fun ag_row => ag_row.id)) = [] := by
    unfold resolve_test_agents
    rw [if_neg h1, if_neg h2, if_neg h3]
  unfold build_test_agents_map
  exact List.mem_map.mpr ⟨t, ht, by rw [hr]⟩

theorem C4_unknown_selector_empty_witness :
    c4Test ∈ [c4Test] ∧ c4Test.agentSelectorType = "" ∧
    ("T9", ([] : List String)) ∈ build_test_agents_map [c4Test] [] [] :=
  ⟨List.mem_cons_self c4Test [], rfl,
    C4_unknown_selector_empty [c4Test] [] [] c4Test (List.mem_cons_self c4Test [])
      (by decide) (by decide) (by decide)⟩

/-- C7: a test with selector type `specific-agents` resolves to exactly
the id set parsed verbatim from its `assignedAgentsRaw` field (its
`specificAgentIds`); the result does not depend on the agent inventory, so
unknown agent ids pass through unchanged. -/
theorem C7_specific_agents_verbatim (scheduled_tests_df : List TestRow)
    (label_agents_map : List (String × List String)) (endpoint_agents_df : List AgentRow)
    (t : TestRow) (ht : t ∈ scheduled_tests_df)
    (hsel : t.agentSelectorType = "specific-agents") :
    (t.testID, parse_id_list t.assignedAgentsRaw) ∈
      build_test_agents_map scheduled_tests_df label_agents_map endpoint_agents_df := by
  have hr : resolve_test_agents t label_agents_map
      (endpoint_agents_df.map (fun ag_row => ag_row.id)) =
        parse_id_list t.assignedAgentsRaw := by
    unfold resolve_test_agents
    rw [hsel]
    simp
  unfold build_test_agents_map
  exact List.mem_map.mpr ⟨t, ht, by rw [hr]⟩

theorem C7_specific_agents_verbatim_witness :
    c7Test ∈ [c7Test] ∧ c7Test.agentSelectorType = "specific-agents" ∧
    parse_id_list c7Test.assignedAgentsRaw = ["X9", "A1"] ∧
    ("T1", ["X9", "A1"]) ∈ build_test_agents_map [c7Test] [] c7Agents :=
  ⟨List.mem_cons_self c7Test [], rfl, by decide,
    C7_specific_agents_verbatim [c7Test] [] c7Agents c7Test
      (List.mem_cons_self c7Test []) rfl⟩

/-- C6: a test with selector type `agent-labels` resolves to the union of
the label index entries of the label ids parsed from `assignedLabelsRaw`;
label ids absent from the index contribute nothing and raise no error. -/
theorem C6_agent_labels_union (scheduled_tests_df : List TestRow)
    (label_agents_map : List (String × List String)) (endpoint_agents_df : List AgentRow)
    (t : TestRow) (ht : t ∈ scheduled_tests_df)
    (hsel : t.agentSelectorType = "agent-labels") :
    (t.testID, resolve_test_agents t label_agents_map
        (endpoint_agents_df.map (fun ag_row => ag_row.id))) ∈
      build_test_agents_map scheduled_tests_df label_agents_map endpoint_agents_df ∧
    ∀ x, (x ∈ resolve_test_agents t label_agents_map
        (endpoint_agents_df.map (fun ag_row => ag_row.id)) ↔
      ∃ lid ∈ parse_id_list t.assignedLabelsRaw,
        ∃ s, label_agents_map.lookup lid = some s ∧ x ∈ s) := by
  constructor
  · unfold build_test_agents_map
    exact List.mem_map.mpr ⟨t, ht, rfl⟩
  · intro x
    have hr : resolve_test_agents t label_agents_map
        (endpoint_agents_df.map (fun ag_row => ag_row.id)) =
          (parse_id_list t.assignedLabelsRaw).foldl (fun acc lid =>
            match label_agents_map.lookup lid with
            | some s => pyUnion acc s
            | none => acc) [] := by
      unfold resolve_test_agents
      rw [hsel]
      simp
    rw [hr, mem_union_foldl]
    simp

theorem C6_agent_labels_union_witness :
    c6Test ∈ [c6Test] ∧ c6Test.agentSelectorType = "agent-labels" ∧
    c6Map.lookup "L9" = none ∧
    ((c6Test.testID, resolve_test_agents c6Test c6Map
        (([] : List AgentRow).map (fun ag_row => ag_row.id))) ∈
      build_test_agents_map [c6Test] c6Map [] ∧
    ∀ x, (x ∈ resolve_test_agents c6Test c6Map
        (([] : List AgentRow).map (fun ag_row => ag_row.id)) ↔
      ∃ lid ∈ parse_id_list c6Test.assignedLabelsRaw,
        ∃ s, c6Map.lookup lid = some s ∧ x ∈ s)) :=
  ⟨List.mem_cons_self c6Test [], rfl, by decide,
    C6_agent_labels_union [c6Test] c6Map [] c6Test (List.mem_cons_self c6Test []) rfl⟩

theorem amf_local_network (agent_row : AgentRow) (filter_values : List String) :
    agent_matches_filter agent_row "local-network" filter_values "in" =
      (agent_ip_list agent_row).any (fun ip_str => ip_in_any_subnet ip_str filter_values) := rfl

theorem ip_in_any_subnet_iff (s : String) (vs : List String) :
    ip_in_any_subnet s vs = true ↔
      ∃ ip, ip_address s = some ip ∧
        ∃ ns ∈ vs, ∃ net, ip_network ns = some net ∧ ipInNet ip net = true := by
  unfold ip_in_any_subnet
  cases h : ip_address s with
  | none => simp
  | some ip =>
    simp only [List.any_eq_true]
    constructor
    · rintro ⟨ns, hns, hb⟩
      refine ⟨ip, rfl, ns, hns, ?_⟩
      cases hn : ip_network ns with
      | none => rw [hn] at hb; cases hb
      | some net => rw [hn] at hb; exact ⟨net, rfl, hb⟩
    · rintro ⟨ip', hip, ns, hns, net, hn, hin⟩
      injection hip with hip
      subst hip
      exact ⟨ns, hns, by rw [hn]; exact hin⟩

/-- C5: the evaluator on a `local-network` clause is total (it is a plain
`Bool`-valued function; the two parse failures the code can meet are the
`none` branches of the modelled parsers, caught and turned into no-match)
and returns true exactly when some address of the agent's `localIpv4`
field parses as an IP address and lies inside some clause value that
parses as a network; unparsable addresses and unparsable network strings
contribute no-match. -/
theorem C5_local_network_lenient (agent_row : AgentRow) (filter_values : List String) :
    agent_matches_filter agent_row "local-network" filter_values "in" = true ↔
      ∃ ip_str ∈ agent_ip_list agent_row, ∃ ip, ip_address ip_str = some ip ∧
        ∃ net_str ∈ filter_values, ∃ net, ip_network net_str = some net ∧
          ipInNet ip net = true := by
  rw [amf_local_network, List.any_eq_true]
  constructor
  · rintro ⟨ip_str, hmem, hb⟩
    obtain ⟨ip, hip, rest⟩ := (ip_in_any_subnet_iff ip_str filter_values).mp hb
    exact ⟨ip_str, hmem, ip, hip, rest⟩
  · rintro ⟨ip_str, hmem, ip, hip, rest⟩
    exact ⟨ip_str, hmem, (ip_in_any_subnet_iff ip_str filter_values).mpr ⟨ip, hip, rest⟩⟩

theorem amf_vpn_vendor (agent_row : AgentRow) (filter_values : List String) :
    agent_matches_filter agent_row "vpn-vendor" filter_values "in" =
      filter_values.any (fun fv => pySub (pyLower fv) (pyLower agent_row.vpnInfo)) := rfl

/-- C8: the evaluator on a `vpn-vendor` clause returns true exactly when
some clause value occurs, after lowering both sides, as a contiguous
substring of the agent's `vpnInfo` field (the joined `vpnInfoLines`); the
test is substring containment, not exact token match. -/
theorem C8_vpn_vendor_substring (agent_row : AgentRow) (filter_values : List String) :
    agent_matches_filter agent_row "vpn-vendor" filter_values "in" = true ↔
      ∃ fv ∈ filter_values, (pyLower fv).data <:+: (pyLower agent_row.vpnInfo).data := by
  rw [amf_vpn_vendor, List.any_eq_true]
  simp [pySub]

/-- C1 counterexample: the label `c1Label` has matchType `xor`, which after
lowering and trimming is neither empty nor `and` nor `or`; the claim says
the matcher then behaves as AND, but the source's `else` branch gives OR:
the matcher accepts `c1Agent` although its username clause fails. -/
theorem C1_counterexample :
    pyStrip (pyLower c1Label.matchType) ≠ "" ∧
    pyStrip (pyLower c1Label.matchType) ≠ "and" ∧
    pyStrip (pyLower c1Label.matchType) ≠ "or" ∧
    ¬ (agent_matches_label c1Agent c1Label = true ↔
        ∀ f ∈ label_filters c1Label,
          agent_matches_filter c1Agent f.key f.values f.mode = true) := by
  decide

/-- C1 amended: for every agent and every label whose matchType, after
lower-casing and trimming, is neither empty nor `and` nor `or`, the Label
Matcher treats the label as matchMode OR: it returns true iff at least one
active clause of the label evaluates true for that agent (only the empty
string defaults to AND; every other unrecognized value falls through to
the OR branch of the source). -/
theorem C1_unrecognized_matchmode_is_or (agent_row : AgentRow) (label_row : LabelRow)
    (h0 : pyStrip (pyLower label_row.matchType) ≠ "")
    (h1 : pyStrip (pyLower label_row.matchType) ≠ "and")
    (_h2 : pyStrip (pyLower label_row.matchType) ≠ "or") :
    agent_matches_label agent_row label_row = true ↔
      ∃ f ∈ label_filters label_row,
        agent_matches_filter agent_row f.key f.values f.mode = true := by
  have hm : agent_matches_label agent_row label_row =
      (label_filters label_row).any
        (fun f => agent_matches_filter agent_row f.key f.values f.mode) := by
    simp only [agent_matches_label]
    rw [if_neg h0, if_neg h1]
  rw [hm, List.any_eq_true]

theorem C1_unrecognized_matchmode_is_or_witness :
    pyStrip (pyLower c1Label.matchType) ≠ "" ∧
    pyStrip (pyLower c1Label.matchType) ≠ "and" ∧
    pyStrip (pyLower c1Label.matchType) ≠ "or" ∧
    (agent_matches_label c1Agent c1Label = true ↔
      ∃ f ∈ label_filters c1Label,
        agent_matches_filter c1Agent f.key f.values f.mode = true) :=
  ⟨by decide, by decide, by decide,
    C1_unrecognized_matchmode_is_or c1Agent c1Label (by decide) (by decide) (by decide)⟩

/-- C3 counterexample: `c3Label` has matchType `and` and all five parsed
clause value sets empty (its `agent_id_filter` is a single space), so by
the claim `buildLabelIndex` should assign every agent id to it; but the
source decides clause activity by Python string truthiness, appends an
agent-id clause with an empty value list, and that clause rejects every
agent, so the label's entry is the empty set. -/
theorem C3_counterexample :
    parse_id_list c3Label.agent_id_filter = [] ∧
    parse_id_list c3Label.username_filter = [] ∧
    parse_id_list c3Label.local_network_filter = [] ∧
    parse_id_list c3Label.vpn_vendor_filter = [] ∧
    parse_id_list c3Label.connection_filter = [] ∧
    pyStrip (pyLower c3Label.matchType) = "and" ∧
    ("L1", ["a1"]) ∉ build_label_agents_map [c3Label] [c3Agent] ∧
    build_label_agents_map [c3Label] [c3Agent] = [("L1", [])] := by
  decide

/-- C3 amended: for a label all five of whose raw filter strings are empty
(the source's notion of "no active clause", decided by string truthiness
rather than by the parsed value sets), `buildLabelIndex` assigns every
agent id of the inventory to the label when its matchType resolves to AND
(`and` after lowering and trimming, or empty, which defaults to AND), and
assigns no agent id when it resolves to OR. -/
theorem C3_vacuous_and_or (labels_df : List LabelRow) (endpoint_agents_df : List AgentRow)
    (lbl : LabelRow) (hmem : lbl ∈ labels_df)
    (h1 : lbl.agent_id_filter = "") (h2 : lbl.username_filter = "")
    (h3 : lbl.local_network_filter = "") (h4 : lbl.vpn_vendor_filter = "")
    (h5 : lbl.connection_filter = "") :
    ((pyStrip (pyLower lbl.matchType) = "and" ∨ pyStrip (pyLower lbl.matchType) = "") →
      (lbl.id, endpoint_agents_df.map (fun ag_row => ag_row.id)) ∈
        build_label_agents_map labels_df endpoint_agents_df) ∧
    (pyStrip (pyLower lbl.matchType) = "or" →
      (lbl.id, ([] : List String)) ∈ build_label_agents_map labels_df endpoint_agents_df) := by
  have hf : label_filters lbl = [] := by
    unfold label_filters
    rw [h1, h2, h3, h4, h5]
    simp
  constructor
  · intro hmode
    have hall : ∀ ag_row : AgentRow, agent_matches_label ag_row lbl = true := by
      intro ag_row
      simp only [agent_matches_label, hf]
      rcases hmode with h | h <;> rw [h] <;> simp
    refine List.mem_map.mpr ⟨lbl, hmem, ?_⟩
    have hfe : endpoint_agents_df.filter (fun ag_row => agent_matches_label ag_row lbl) =
        endpoint_agents_df :=
      List.filter_eq_self.mpr (fun a _ => hall a)
    rw [hfe]
  · intro hmode
    have hnone : ∀ ag_row : AgentRow, ¬ agent_matches_label ag_row lbl = true := by
      intro ag_row
      simp only [agent_matches_label, hf]
      rw [hmode]
      simp
    refine List.mem_map.mpr ⟨lbl, hmem, ?_⟩
    have hfe : endpoint_agents_df.filter (fun ag_row => agent_matches_label ag_row lbl) =
        [] :=
      List.filter_eq_nil_iff.mpr (fun a _ => hnone a)
    rw [hfe]
    rfl

theorem C3_vacuous_and_or_witness :
    c3wLabel ∈ [c3wLabel] ∧
    c3wLabel.agent_id_filter = "" ∧ c3wLabel.username_filter = "" ∧
    c3wLabel.local_network_filter = "" ∧ c3wLabel.vpn_vendor_filter = "" ∧
    c3wLabel.connection_filter = "" ∧
    (((pyStrip (pyLower c3wLabel.matchType) = "and" ∨
        pyStrip (pyLower c3wLabel.matchType) = "") →
      (c3wLabel.id, [c3wAgent].map (fun ag_row => ag_row.id)) ∈
        build_label_agents_map [c3wLabel] [c3wAgent]) ∧
    (pyStrip (pyLower c3wLabel.matchType) = "or" →
      (c3wLabel.id, ([] : List String)) ∈ build_label_agents_map [c3wLabel] [c3wAgent])) :=
  ⟨List.mem_cons_self c3wLabel [], rfl, rfl, rfl, rfl, rfl,
    C3_vacuous_and_or [c3wLabel] [c3wAgent] c3wLabel (List.mem_cons_self c3wLabel [])
      rfl rfl rfl rfl rfl⟩

theorem foldl_append_eq_flatMap {α β : Type} (f : α → List β) :
    ∀ (l : List α) (init : List β),
      l.foldl (fun acc x => acc ++ f x) init = init ++ l.flatMap f := by
  intro l
  induction l with
  | nil => intro init; simp
  | cons x xs ih =>
    intro init
    rw [List.foldl_cons, ih, List.flatMap_cons, List.append_assoc]

theorem pairwise_assignment_blocks (test_lookup agent_lookup : List (String × String)) :
    ∀ m : List (String × List String),
      List.Pairwise (fun p q => idLt p.1 q.1) m →
      (∀ p ∈ m, List.Pairwise idLe p.2) →
      List.Pairwise assignLE (m.flatMap (fun p =>
        p.2.map (fun ag_id => mk_assignment_row test_lookup agent_lookup p.1 ag_id))) := by
  intro m
  induction m with
  | nil => intro _ _; simp
  | cons p rest ih =>
    intro hkeys hvals
    rw [List.flatMap_cons]
    refine List.pairwise_append.mpr ⟨?_, ?_, ?_⟩
    · exact (hvals p (List.mem_cons_self p rest)).map _
        (fun a b hab => Or.inr ⟨rfl, hab⟩)
    · exact ih (List.pairwise_cons.mp hkeys).2
        (fun q hq => hvals q (List.mem_cons_of_mem _ hq))
    · intro a ha b hb
      obtain ⟨aid, _, rfl⟩ := List.mem_map.mp ha
      obtain ⟨q, hq, hbq⟩ := List.mem_flatMap.mp hb
      obtain ⟨bid, _, rfl⟩ := List.mem_map.mp hbq
      exact Or.inl ((List.pairwise_cons.mp hkeys).1 q hq)

/-- C2 counterexample: a test-to-agent-set map iterated with `T2` before
`T1` yields an assignment list whose rows are not sorted by
(testId, agentId) — the projector emits rows in map iteration order and
performs no sorting. -/
theorem C2_counterexample :
    ¬ List.Pairwise assignLE
      (build_test_agent_assignment_df [] [("T2", ["A1"]), ("T1", ["A1"])] []) := by
  decide

/-- C2 amended: the projector emits one row per (testId, agentId) pair in
the iteration order of the input map and of each agent set, with no
sorting step; consequently the Assignment list is sorted by (testId, then
agentId) when the map is iterated in strictly increasing testId order and
each agent set in non-decreasing agentId order, but not regardless of the
input iteration order. -/
theorem C2_sorted_when_input_sorted (scheduled_tests_df : List TestRow)
    (test_agents_map : List (String × List String)) (endpoint_agents_df : List AgentRow)
    (hkeys : List.Pairwise (fun p q => idLt p.1 q.1) test_agents_map)
    (hvals : ∀ p ∈ test_agents_map, List.Pairwise idLe p.2) :
    List.Pairwise assignLE
      (build_test_agent_assignment_df scheduled_tests_df test_agents_map
        endpoint_agents_df) := by
  unfold build_test_agent_assignment_df
  rw [foldl_append_eq_flatMap, List.nil_append]
  exact pairwise_assignment_blocks _ _ test_agents_map hkeys hvals

theorem C2_sorted_when_input_sorted_witness :
    List.Pairwise (fun p q : String × List String => idLt p.1 q.1)
      [("T1", ["A1", "A2"]), ("T2", ["B1"])] ∧
    (∀ p ∈ [("T1", ["A1", "A2"]), ("T2", ["B1"])], List.Pairwise idLe p.2) ∧
    List.Pairwise assignLE
      (build_test_agent_assignment_df [] [("T1", ["A1", "A2"]), ("T2", ["B1"])] []) :=
  ⟨by decide, by decide,
    C2_sorted_when_input_sorted [] [("T1", ["A1", "A2"]), ("T2", ["B1"])] []
      (by decide) (by decide)⟩

example : ip_address "10.228.5.100" = some (((10 * 256 + 228) * 256 + 5) * 256 + 100) := by
  decide

example : ip_in_any_subnet "10.228.5.100" ["10.228.0.0/17"] = true := by decide

example : ip_in_any_subnet "192.168.1.1" ["10.228.0.0/17"] = false := by decide

example : ip_in_any_subnet "10.0.0.5" ["not-a-cidr"] = false := by decide

example : ip_in_any_subnet "not-an-ip" ["10.0.0.0/8"] = false := by decide

example :
    build_test_agent_assignment_df
      [⟨"T1", "test one", "agent-labels", "", "L1"⟩]
      (build_test_agents_map [⟨"T1", "test one", "agent-labels", "", "L1"⟩]
        (build_label_agents_map [⟨"L1", "and", "", "bob", "", "", ""⟩]
          [⟨"A1", "agent one", "bob", "10.0.0.5", "", ""⟩,
           ⟨"A2", "agent two", "alice", "192.168.1.5", "", ""⟩])
        [⟨"A1", "agent one", "bob", "10.0.0.5", "", ""⟩,
         ⟨"A2", "agent two", "alice", "192.168.1.5", "", ""⟩])
      [⟨"A1", "agent one", "bob", "10.0.0.5", "", ""⟩,
       ⟨"A2", "agent two", "alice", "192.168.1.5", "", ""⟩] =
    [⟨"T1", "test one", "A1", "agent one"⟩] := by
  decide

end TeyesDC

